import Mathlib

/-!
Verification of the PyGenie-Scans scan/monoid/fit core.

This file gives a shallow embedding of the repository's core algorithms:

* `Scans/Scans.py` — the scan algebra (`SimpleScan`, `SumScan`,
  `ProductScan`, `ParallelScan`, `ForeverScan`) with `reverse`, `__len__`,
  `map`, `and_back`, iteration records and the accumulation loop of
  `Scan.plot`;
* `Scans/Monoid.py` — the `Sum`, `Average`, `Polarisation` and
  `MonoidList` accumulators together with Python's binary-`+` dispatch
  protocol (`__add__` / `__radd__` / `TypeError`), which matters for the
  monoid-identity laws;
* `Scans/Util.py` — the `get_points` point-generation helper;
* `Scans/Fit.py` — the degree gate of `Fit.fit_plot_action` and the
  `ErrorFit.readable` parameter lookup;
* `Scans/Motion.py` — the motion capability used while iterating a
  `SimpleScan`.

Positions and measured values are modelled as rationals (the Python code
uses floats, but every computation relevant to the properties below is
exact), except for `Polarisation.err`, which involves square roots and is
modelled over the reals.
-/

namespace PyGenie

/-- A position record: an ordered mapping from axis name to position, as
produced by `Scan.__iter__` (an `OrderedDict` in the source). -/
abbrev Record := List (String × ℚ)

/-- The value stored in a scan's `defaults` slot.  In the source this is
normally a `Defaults` object (identified here by a tag), but nothing stops
a string from being stored there — which is exactly what
`SimpleScan.map` does. -/
inductive DefaultsSlot where
  | obj (tag : Nat)
  | strv (s : String)
deriving DecidableEq, Repr

/-- The scan algebra of `Scans/Scans.py`: `SimpleScan`, `SumScan`
(operator `+`), `ProductScan` (`*`), `ParallelScan` (`&`) and
`ForeverScan`.  A `SimpleScan` stores its motion's title (its `name`),
its point list and its `defaults` slot. -/
inductive Scan where
  | simple (title : String) (values : List ℚ) (defaults : DefaultsSlot)
  | sumS (first second : Scan)
  | prodS (outer inner : Scan)
  | parS (first second : Scan)
  | foreverS (scan : Scan)
deriving DecidableEq, Repr

/-- `merge_dicts(x, y)` from `Scans/Scans.py`: `final = x.copy();
final.update(y)`.  Keys of `x` keep their place (taking `y`'s value on
collision); keys only in `y` are appended in `y`'s order. -/
def mergeDicts (x y : Record) : Record :=
  x.map (fun p => match y.lookup p.1 with
                  | some v => (p.1, v)
                  | none => p)
    ++ y.filter (fun p => (x.lookup p.1) = none)

/-- The sequence of position records produced by iterating a scan
(`__iter__` of each variant).  `ForeverScan` iterates forever, so a scan
containing it has no finite record list: `none`. -/
def Scan.records : Scan → Option (List Record)
  | .simple t vs _ => some (vs.map (fun v => [(t, v)]))
  | .sumS a b => do
      let ra ← a.records
      let rb ← b.records
      return ra ++ rb
  | .prodS a b => do
      let ra ← a.records
      let rb ← b.records
      return ra.flatMap (fun i => rb.map (fun j => mergeDicts i j))
  | .parS a b => do
      let ra ← a.records
      let rb ← b.records
      return (ra.zip rb).map (fun p => mergeDicts p.1 p.2)
  | .foreverS _ => none

/-- `reverse` of each scan variant, exactly as in the source:
`SimpleScan` reverses its value list (`self.values[::-1]`), `SumScan`
swaps and reverses its parts, and `ProductScan`/`ParallelScan`/
`ForeverScan` reverse componentwise. -/
def Scan.reverse : Scan → Scan
  | .simple t vs d => .simple t vs.reverse d
  | .sumS a b => .sumS b.reverse a.reverse
  | .prodS a b => .prodS a.reverse b.reverse
  | .parS a b => .parS a.reverse b.reverse
  | .foreverS s => .foreverS s.reverse

/-- `__len__` of each variant.  `ForeverScan.__len__` raises
`RuntimeError("Attempted to get the length of an infinite list")` — the
condition the spec names `UnboundedScanError`; raising is modelled as
`Except.error` carrying the message. -/
def Scan.len : Scan → Except String Nat
  | .simple _ vs _ => .ok vs.length
  | .sumS a b => do
      let na ← a.len
      let nb ← b.len
      return na + nb
  | .prodS a b => do
      let na ← a.len
      let nb ← b.len
      return na * nb
  | .parS a b => do
      let na ← a.len
      let nb ← b.len
      return min na nb
  | .foreverS _ => .error "Attempted to get the length of an infinite list"

/-- `Scan.and_back`: `self + self.reverse`. -/
def Scan.and_back (s : Scan) : Scan := .sumS s s.reverse

/-- `map` of each variant.  `SimpleScan.map` in the source is

    return SimpleScan(self.action, map(func, self.values), self.name)

so the constructed scan's `defaults` slot receives `self.name` (the
motion title, a string), not `self.defaults`; the embedding reproduces
that faithfully.  The composite variants map their parts. -/
def Scan.map (f : ℚ → ℚ) : Scan → Scan
  | .simple t vs _d => .simple t (vs.map f) (.strv t)
  | .sumS a b => .sumS (a.map f) (b.map f)
  | .prodS a b => .prodS (a.map f) (b.map f)
  | .parS a b => .parS (a.map f) (b.map f)
  | .foreverS s => .foreverS (s.map f)

/-- The `defaults` attribute of a scan: composite scans take their first
(or outer) part's defaults, as in the source constructors. -/
def Scan.defaultsOf : Scan → DefaultsSlot
  | .simple _ _ d => d
  | .sumS a _ => a.defaultsOf
  | .prodS a _ => a.defaultsOf
  | .parS a _ => a.defaultsOf
  | .foreverS s => s.defaultsOf

/-! ### Motion and `SimpleScan.__iter__` (`Scans/Motion.py`, `Scans/Scans.py`) -/

/-- The state of a single physical axis: its current position.  The
`Motion` capability reads it when called without an argument and writes
it (blocking until settled) when called with one. -/
structure MotorState where
  pos : ℚ
deriving DecidableEq, Repr

/-- `Motion.__call__(x)` with an argument: command a new position. -/
def motionSet (x : ℚ) (_s : MotorState) : MotorState := ⟨x⟩

/-- `Motion.__call__()` without an argument: read the position. -/
def motionGet (s : MotorState) : ℚ := s.pos

/-- One observable event of the side-effecting `SimpleScan.__iter__`
generator: a motion command, the wait for it, or a yielded record. -/
inductive MotionEvent where
  | moveTo (x : ℚ)
  | waitForMove
  | yielded (r : Record)
deriving DecidableEq, Repr

/-- The event trace of `SimpleScan.__iter__`: for each point `i` the
loop issues `self.action(i)`, calls `g.waitfor_move()`, then yields the
one-entry record `{self.name: self.action()}` built from the read-back
position. -/
def simpleScanRun (title : String) : List ℚ → MotorState → List MotionEvent
  | [], _ => []
  | p :: rest, s =>
      let s1 := motionSet p s
      .moveTo p :: .waitForMove :: .yielded [(title, motionGet s1)]
        :: simpleScanRun title rest s1

/-- The records yielded along an event trace, in order. -/
def yieldedRecords : List MotionEvent → List Record
  | [] => []
  | .yielded r :: rest => r :: yieldedRecords rest
  | .moveTo _ :: rest => yieldedRecords rest
  | .waitForMove :: rest => yieldedRecords rest

/-! ### The accumulation loop of `Scan.plot` (`Scans/Scans.py`) -/

/-- The `Average` monoid of `Scans/Monoid.py`, as accumulated by
`Scan.plot` (`total` and `count` fields). -/
structure Average where
  total : ℚ
  count : ℚ
deriving DecidableEq, Repr

/-- `Average.__iadd__` (also `__add__`) on two `Average`s: both fields
add. -/
def Average.iadd (a b : Average) : Average :=
  ⟨a.total + b.total, a.count + b.count⟩

/-- A value returned by the detector inside `Scan.plot`: either a bare
float or an already-constructed monoid. -/
inductive Meas where
  | scalar (x : ℚ)
  | mon (a : Average)
deriving DecidableEq, Repr

/-- `Scan.plot`'s promotion: `if isinstance(value, float): value =
Average(value)` (an `Average` with count 1). -/
def promote : Meas → Average
  | .scalar x => ⟨x, 1⟩
  | .mon a => a

/-- `xs.index(position)` as used by `Scan.plot` (restricted to the found
case by the preceding `position in xs` test): index of the first
occurrence. -/
def idxOf (x : ℚ) : List ℚ → Option Nat
  | [] => none
  | y :: rest => if y = x then some 0 else (idxOf x rest).map (· + 1)

/-- Replace the element at an index by applying a function (used for
`ys[xs.index(position)] += value`). -/
def updateAt : Nat → (Average → Average) → List Average → List Average
  | _, _, [] => []
  | 0, f, a :: rest => f a :: rest
  | n + 1, f, a :: rest => a :: updateAt n f rest

/-- The accumulation loop of `Scan.plot`, paired with the measurement
each record received.  Per record: `(label, position) =
next(iter(x.items()))` (StopIteration on an empty record is modelled as
an error), the measurement is promoted, and then either `ys[xs.index
(position)] += value` on a revisit or `xs.append(position);
ys.append(value)` on a first visit. -/
def plotFold : List (Record × Meas) → List ℚ × List Average →
    Except String (List ℚ × List Average)
  | [], acc => .ok acc
  | (r, v) :: rest, (xs, ys) =>
      match r.head? with
      | none => .error "StopIteration"
      | some (_label, position) =>
          let value := promote v
          match idxOf position xs with
          | some i => plotFold rest (xs, updateAt i (fun m => m.iadd value) ys)
          | none => plotFold rest (xs ++ [position], ys ++ [value])

/-! ### Python `+` dispatch over the monoids (`Scans/Monoid.py`) -/

/-- The three scalar-carrying monoid classes, with their fields:
`Sum(total)`, `Average(total, count)`, `Polarisation(ups, downs)`. -/
inductive FlatMonoid where
  | sumM (total : ℚ)
  | avgM (total count : ℚ)
  | polM (ups downs : ℚ)
deriving DecidableEq, Repr

/-- The static `zero()` of each flat monoid class: `Sum(0)`,
`Average(0, 0)`, `Polarisation(0, 0)`. -/
def FlatMonoid.zero : FlatMonoid → FlatMonoid
  | .sumM _ => .sumM 0
  | .avgM _ _ => .avgM 0 0
  | .polM _ _ => .polM 0 0

/-- `a.__add__(b)` for two flat monoid instances (the `y == 0` test is
false, since monoid instances have no `__eq__` against ints).  Each
class reads the fields it needs from `y`, duck-typed: `Sum` reads
`y.total` (present on `Average` too), `Average` reads `y.total` and
`y.count`, `Polarisation` reads `y.ups` and `y.downs`; a missing field
raises `AttributeError`. -/
def flatAdd : FlatMonoid → FlatMonoid → Except String FlatMonoid
  | .sumM t, .sumM u => .ok (.sumM (t + u))
  | .sumM t, .avgM u _ => .ok (.sumM (t + u))
  | .sumM _, .polM _ _ => .error "AttributeError"
  | .avgM t c, .avgM u d => .ok (.avgM (t + u) (c + d))
  | .avgM _ _, .sumM _ => .error "AttributeError"
  | .avgM _ _, .polM _ _ => .error "AttributeError"
  | .polM u d, .polM u2 d2 => .ok (.polM (u + u2) (d + d2))
  | .polM _ _, .sumM _ => .error "AttributeError"
  | .polM _ _, .avgM _ _ => .error "AttributeError"

/-- The elementwise list comprehension `[a + b for a, b in zip(vs, ys)]`
inside `MonoidList.__add__`: `zip` truncates to the shorter list and the
first failing element addition raises. -/
def zipFlatAdd : List FlatMonoid → List FlatMonoid →
    Except String (List FlatMonoid)
  | [], _ => .ok []
  | _ :: _, [] => .ok []
  | a :: xs, b :: ys =>
      match flatAdd a b with
      | .error e => .error e
      | .ok c =>
          match zipFlatAdd xs ys with
          | .error e => .error e
          | .ok rest => .ok (c :: rest)

/-- A Python value taking part in monoid addition: a bare number, a flat
monoid instance, a `MonoidList`, or a plain Python list of monoids (what
`MonoidList.zero()` returns). -/
inductive MVal where
  | intV (n : ℚ)
  | flat (m : FlatMonoid)
  | mlist (values : List FlatMonoid)
  | listV (values : List FlatMonoid)
deriving DecidableEq, Repr

/-- The `zero()` method where Python defines one: on the flat monoid
classes it is static and returns a monoid instance; on `MonoidList` it
is an instance method returning a *plain list* of elementwise zeros
(`return [x.zero() for x in self.values]` — not a `MonoidList`).  Bare
numbers and plain lists have no `zero()`. -/
def MVal.zeroM : MVal → Option MVal
  | .flat m => some (.flat m.zero)
  | .mlist vs => some (.listV (vs.map FlatMonoid.zero))
  | .intV _ => none
  | .listV _ => none

/-- Python's `a + b` over these values, following the binary-operator
protocol: try `a.__add__(b)`; on `NotImplemented` try `b.__radd__(a)`
(only `Average` and numbers define `__radd__`); otherwise `TypeError`.
Each monoid `__add__` first substitutes `self.zero()` for a literal `0`
argument; `MonoidList.__add__` zips (so the right side must be iterable:
a list or a `MonoidList`); a plain list concatenates only with another
plain list. -/
def pyAdd : MVal → MVal → Except String MVal
  | .intV m, .intV n => .ok (.intV (m + n))
  | .intV m, .flat (.avgM t c) =>
      if m = 0 then .ok (.flat (.avgM t c)) else .error "AttributeError"
  | .intV _, .flat (.sumM _) => .error "TypeError"
  | .intV _, .flat (.polM _ _) => .error "TypeError"
  | .intV _, .mlist _ => .error "TypeError"
  | .intV _, .listV _ => .error "TypeError"
  | .flat m, .intV n =>
      if n = 0 then (flatAdd m m.zero).map .flat
      else .error "AttributeError"
  | .flat m, .flat m2 => (flatAdd m m2).map .flat
  | .flat _, .mlist _ => .error "AttributeError"
  | .flat _, .listV _ => .error "AttributeError"
  | .mlist vs, .intV n =>
      if n = 0 then (zipFlatAdd vs (vs.map FlatMonoid.zero)).map .mlist
      else .error "TypeError"
  | .mlist vs, .mlist ys => (zipFlatAdd vs ys).map .mlist
  | .mlist vs, .listV ys => (zipFlatAdd vs ys).map .mlist
  | .mlist _, .flat _ => .error "TypeError"
  | .listV xs, .listV ys => .ok (.listV (xs ++ ys))
  | .listV _, .intV _ => .error "TypeError"
  | .listV _, .flat (.avgM _ _) => .error "AttributeError"
  | .listV _, .flat (.sumM _) => .error "TypeError"
  | .listV _, .flat (.polM _ _) => .error "TypeError"
  | .listV _, .mlist _ => .error "TypeError"

/-! ### Point generation (`Scans/Util.py`) -/

/-- Python truthiness of an optional number (`if stride:`): present and
nonzero. -/
def truthyQ : Option ℚ → Bool
  | none => false
  | some x => decide (x ≠ 0)

/-- Python truthiness of an optional count (`if gaps:`, `elif
count:`). -/
def truthyN : Option ℕ → Bool
  | none => false
  | some n => decide (n ≠ 0)

/-- `np.linspace(a, b, n)`: `n` evenly spaced points from `a` to `b`,
endpoints included (exact over ℚ). -/
def linspace (a b : ℚ) (n : ℕ) : List ℚ :=
  if n = 0 then []
  else if n = 1 then [a]
  else (List.range n).map (fun i => a + (b - a) * i / (n - 1))

/-- `np.arange(a, b, s)`: `⌈(b − a)/s⌉` points `a, a+s, a+2s, …`, the
stop value excluded. -/
def arange (a b s : ℚ) : List ℚ :=
  let n : ℤ := ⌈(b - a) / s⌉
  (List.range n.toNat).map (fun i => a + s * i)

/-- The `if gaps: count = gaps + 1` resolution step of `get_points`. -/
def resolveCount (count gaps : Option ℕ) : Option ℕ :=
  if truthyN gaps then some ((gaps.getD 0) + 1) else count

/-- The `if before is not None: start = current + before` resolution
step of `get_points` (and symmetrically for `after`/`stop`). -/
def resolveEnd (current : ℚ) (endpoint relative : Option ℚ) : Option ℚ :=
  match relative with
  | some r => some (current + r)
  | none => endpoint

/-- The `start`/`stop` branch body of `get_points`: a truthy `stride`
gives `linspace(start, stop, ceil((stop−start)/stride) + 1)`, else a
truthy `count` gives `linspace(start, stop, count)`, else a truthy
`step` gives `arange(start, stop, step)`, else fall through to the
`RuntimeError`. -/
def pointsStartStop (sa so : ℚ) (step stride : Option ℚ)
    (count : Option ℕ) : Except String (List ℚ) :=
  if truthyQ stride then
    .ok (linspace sa so (⌈(so - sa) / stride.getD 0⌉ + 1).toNat)
  else if truthyN count then
    .ok (linspace sa so (count.getD 0))
  else if truthyQ step then
    .ok (arange sa so (step.getD 0))
  else .error "Unable to build a scan with that set of options."

/-- The `start`-and-`count` branch of `get_points` (no `stop`): with a
truthy spacing (`stride` preferred over `step`), `count` points starting
at `start`, i.e. `linspace(start, start + (count−1)·step, count)`. -/
def pointsStartCount (sa : ℚ) (step stride : Option ℚ)
    (count : Option ℕ) : Except String (List ℚ) :=
  if truthyN count ∧ (truthyQ stride ∨ truthyQ step) then
    .ok (linspace sa
      (sa + (((count.getD 0) : ℚ) - 1) *
        (if truthyQ stride then stride.getD 0 else step.getD 0))
      (count.getD 0))
  else .error "Unable to build a scan with that set of options."

/-- `get_points` from `Scans/Util.py`.  `exact` overrides everything; a
truthy `gaps` sets `count = gaps + 1`; `before`/`after` resolve against
the current position to absolute `start`/`stop`; then the
`start`/`stop`, `start`/`count` or failing branch per
`pointsStartStop`/`pointsStartCount`. -/
def get_points (current : ℚ) (start stop step stride : Option ℚ)
    (count gaps : Option ℕ) (before after : Option ℚ)
    (exact : Option (List ℚ)) : Except String (List ℚ) :=
  match exact with
  | some xs => .ok xs
  | none =>
    match resolveEnd current start before, resolveEnd current stop after with
    | some sa, some so =>
        pointsStartStop sa so step stride (resolveCount count gaps)
    | some sa, none =>
        pointsStartCount sa step stride (resolveCount count gaps)
    | _, _ => .error "Unable to build a scan with that set of options."

/-! ### `Polarisation` scalar and uncertainty (`Scans/Monoid.py`) -/

/-- A counting monoid as seen by `Polarisation.err`: something with a
scalar value (`float(x)`) and an uncertainty (`x.err()`), e.g. a `Sum`
or `Average` of counts. -/
structure CountMonoid where
  val : ℝ
  unc : ℝ

/-- `Polarisation.__float__`: `(u − d)/(u + d)`, and 0 when
`u + d = 0`. -/
noncomputable def polFloat (ups downs : CountMonoid) : ℝ :=
  if ups.val + downs.val = 0 then 0
  else (ups.val - downs.val) / (ups.val + downs.val)

/-- `Polarisation.err` exactly as in the source:

    float(self) * sqrt(downs.err()**2 + ups.err()**2)
                * sqrt((u − d)**-2 + (u + d)**-2)

and 0 when `u + d = 0`.  Note the first factor is the *signed* scalar
`float(self)`. -/
noncomputable def polErr (ups downs : CountMonoid) : ℝ :=
  if ups.val + downs.val = 0 then 0
  else polFloat ups downs * Real.sqrt (downs.unc ^ 2 + ups.unc ^ 2) *
    Real.sqrt ((ups.val - downs.val) ^ (-2 : ℤ) +
               (ups.val + downs.val) ^ (-2 : ℤ))

/-- The spec's formula for `Polarisation.err`, written from §4.2 of the
spec for comparison: `|P| · sqrt(σd² + σu²) · sqrt((u−d)⁻² + (u+d)⁻²)`,
0 when `u + d = 0`.  It differs from `polErr` only in taking `|P|`. -/
noncomputable def polErrSpec (ups downs : CountMonoid) : ℝ :=
  if ups.val + downs.val = 0 then 0
  else |polFloat ups downs| * Real.sqrt (downs.unc ^ 2 + ups.unc ^ 2) *
    Real.sqrt ((ups.val - downs.val) ^ (-2 : ℤ) +
               (ups.val + downs.val) ^ (-2 : ℤ))

/-! ### The fit framework (`Scans/Fit.py`) -/

/-- One step of the closure returned by `Fit.fit_plot_action`, in the
single-channel branch: below `degree` accumulated points it returns
`None`; otherwise it runs `self.fit` — whose non-convergence
(`RuntimeError`) is caught and turned into `None` — and returns the
parameters.  The fitting routine itself (scipy) is abstracted as the
function argument `fitFn`. -/
def fitPlotActionStep (degree : ℕ) (xs ys : List ℚ)
    (fitFn : List ℚ → List ℚ → Except Unit (List ℚ)) : Option (List ℚ) :=
  if xs.length < degree then none
  else
    match fitFn xs ys with
    | .error _ => none
    | .ok params => some params

/-- The parameters of `ErrorFit._model` after the free variable `xs`:
`center, sigma, bottom, top`.  `curve_fit` therefore produces a
parameter vector with exactly this many entries. -/
def erfParamNames : List String := ["center", "sigma", "bottom", "top"]

/-- `ErrorFit._model`: `amplitude * erf((xs − center)/sigma) + height`
with `amplitude = (top − bottom)/2` and `height = (top + bottom)/2`
(`erf` itself abstracted as an argument). -/
noncomputable def errorFitModel (erf : ℝ → ℝ) (x center sigma bottom top : ℝ) : ℝ :=
  (top - bottom) / 2 * erf ((x - center) / sigma) + (top + bottom) / 2

/-- `ErrorFit.readable`: `{"center": fit[0], "sigma": fit[2], "left":
fit[3], "right": fit[4]}`.  An out-of-range index raises `IndexError`,
modelled as `none`. -/
def errorFitReadable (fit : List ℚ) : Option (List (String × ℚ)) := do
  let c ← fit.get? 0
  let s ← fit.get? 2
  let l ← fit.get? 3
  let r ← fit.get? 4
  return [("center", c), ("sigma", s), ("left", l), ("right", r)]

/-! ## Theorems -/

/-- Reversal is a structural involution on scan expressions: each
variant's `reverse` applied twice rebuilds the original expression. -/
theorem Scan.reverse_reverse (s : Scan) : s.reverse.reverse = s := by
  induction s with
  | simple t vs d => simp [Scan.reverse]
  | sumS a b iha ihb => simp [Scan.reverse, iha, ihb]
  | prodS a b iha ihb => simp [Scan.reverse, iha, ihb]
  | parS a b iha ihb => simp [Scan.reverse, iha, ihb]
  | foreverS s ih => simp [Scan.reverse, ih]

/-- C5: for every scan of the algebra (in particular each of the four
finite variants), `a.reverse.reverse` yields exactly the same sequence
of position records as `a` — same order and same values. -/
theorem scan_reverse_reverse_records (s : Scan) :
    s.reverse.reverse.records = s.records := by
  rw [Scan.reverse_reverse]

/-- C6: for all finite scans `a`, `b` the length laws hold —
`len(a+b) = len(a) + len(b)`, `len(a*b) = len(a) * len(b)`,
`len(a&b) = min(len(a), len(b))` — and asking a `forever`-wrapped scan
for its length returns no value but fails with the unbounded-scan
error. -/
theorem scan_length_laws :
    (∀ a b : Scan, ∀ na nb : Nat, a.len = .ok na → b.len = .ok nb →
       (Scan.sumS a b).len = .ok (na + nb) ∧
       (Scan.prodS a b).len = .ok (na * nb) ∧
       (Scan.parS a b).len = .ok (min na nb)) ∧
    (∀ s : Scan, (Scan.foreverS s).len =
       .error "Attempted to get the length of an infinite list") := by
  constructor
  · intro a b na nb ha hb
    refine ⟨?_, ?_, ?_⟩ <;> (simp [Scan.len, ha, hb]; rfl)
  · intro s
    rfl

/-- C6 witness: the length laws at concrete scans of lengths 2 and 3. -/
theorem scan_length_laws_witness :
    (Scan.sumS (.simple "a" [0, 1] (.obj 0))
               (.simple "b" [0, 1, 2] (.obj 0))).len = .ok 5 ∧
    (Scan.prodS (.simple "a" [0, 1] (.obj 0))
                (.simple "b" [0, 1, 2] (.obj 0))).len = .ok 6 ∧
    (Scan.parS (.simple "a" [0, 1] (.obj 0))
               (.simple "b" [0, 1, 2] (.obj 0))).len = .ok 2 := by
  have h := scan_length_laws.1 (.simple "a" [0, 1] (.obj 0))
    (.simple "b" [0, 1, 2] (.obj 0)) 2 3 rfl rfl
  exact ⟨h.1, h.2.1, h.2.2⟩

/-- C9: iterating a `SimpleScan` produces exactly one event triple per
point, in point order: the motion command `motion(point)` is issued (and
waited on) before the record `{motion.name: point}` is yielded; the
yielded records are exactly `{name: point}` for each point in order, and
they agree with `Scan.records`; the trace is a function of the
construction parameters alone (the initial motor position never enters
it). -/
theorem simpleScan_iteration (title : String) (points : List ℚ)
    (s0 : MotorState) (d : DefaultsSlot) :
    simpleScanRun title points s0 =
      points.flatMap
        (fun p => [.moveTo p, .waitForMove, .yielded [(title, p)]]) ∧
    yieldedRecords (simpleScanRun title points s0) =
      points.map (fun p => [(title, p)]) ∧
    (Scan.simple title points d).records =
      some (yieldedRecords (simpleScanRun title points s0)) := by
  have htrace : ∀ (ps : List ℚ) (s : MotorState),
      simpleScanRun title ps s =
        ps.flatMap
          (fun p => [.moveTo p, .waitForMove, .yielded [(title, p)]]) := by
    intro ps
    induction ps with
    | nil => intro s; rfl
    | cons p rest ih =>
        intro s
        simp [simpleScanRun, motionSet, motionGet, ih]
  have hyield : ∀ (ps : List ℚ) (s : MotorState),
      yieldedRecords (simpleScanRun title ps s) =
        ps.map (fun p => [(title, p)]) := by
    intro ps
    induction ps with
    | nil => intro s; rfl
    | cons p rest ih =>
        intro s
        simp [simpleScanRun, yieldedRecords, motionSet, motionGet, ih]
  refine ⟨htrace points s0, hyield points s0, ?_⟩
  rw [hyield points s0]
  rfl

/-- C3 (code evaluated at the failing input): mapping a function over a
`SimpleScan` built with a genuine defaults object stores the motion's
*title string* in the result's `defaults` slot — `SimpleScan.map` passes
`self.name` where the constructor expects `defaults` — so the mapped
scan does not keep the defaults object of the original. -/
theorem simpleScan_map_defaults_bug :
    ((Scan.simple "theta" [0, 1] (.obj 0)).map (fun x => x + 1)).defaultsOf
      = .strv "theta" ∧
    (Scan.simple "theta" [0, 1] (.obj 0)).defaultsOf = .obj 0 ∧
    ((Scan.simple "theta" [0, 1] (.obj 0)).map (fun x => x + 1)).defaultsOf
      ≠ (Scan.simple "theta" [0, 1] (.obj 0)).defaultsOf := by
  refine ⟨rfl, rfl, ?_⟩
  simp [Scan.map, Scan.defaultsOf]

/-- C10: `ErrorFit.readable` reads index 4 of the fit-parameter vector,
but the error-function model has exactly 4 parameters
(`center, sigma, bottom, top`), so on every 4-element parameter vector
the lookup is out of bounds and `readable` never produces its dictionary
for a successful Erf fit. -/
theorem errorFit_readable_out_of_bounds :
    erfParamNames.length = 4 ∧
    ∀ fit : List ℚ, fit.length = erfParamNames.length →
      errorFitReadable fit = none := by
  refine ⟨rfl, ?_⟩
  intro fit h
  match fit, h with
  | [a, b, c, d], _ => rfl

/-- C10 witness: on the concrete 4-parameter vector `[1, 2, 3, 4]`,
`ErrorFit.readable` fails. -/
theorem errorFit_readable_out_of_bounds_witness :
    errorFitReadable [1, 2, 3, 4] = none :=
  errorFit_readable_out_of_bounds.2 [1, 2, 3, 4] rfl

/-- C1 counterexample: `get_points` with `start=0, stop=10, stride=3`
does not return 4 points — `ceil(10/3) = 4` steps give `4 + 1 = 5`
linspace points. -/
theorem get_points_stride_counterexample :
    (get_points 0 (some 0) (some 10) none (some 3) none none none none
      none).map List.length ≠ .ok 4 := by
  have h : (⌈(10 : ℚ) / 3⌉ : ℤ) = 4 := by norm_num [Int.ceil_eq_iff]
  simp [get_points, resolveEnd, resolveCount, pointsStartStop, truthyQ,
    truthyN, linspace, h, List.range_succ, Except.map]

/-- C1 (amended): `start=0, stop=10, count=5` gives `[0,2.5,5,7.5,10]`;
`start=0, stop=10, step=3` gives `[0,3,6,9]` (endpoint excluded);
`start=0, stop=10, stride=3` gives **5** (not 4) evenly spaced points
covering 0..10 inclusive, `[0,2.5,5,7.5,10]`, the step count rounded up
so the endpoint is included; and `before=-2, after=3` at current
position 5 resolves to `start=3, stop=8` before generating points
(whatever the remaining options). -/
theorem get_points_spec :
    get_points 0 (some 0) (some 10) none none (some 5) none none none
      none = .ok [0, 5/2, 5, 15/2, 10] ∧
    get_points 0 (some 0) (some 10) (some 3) none none none none none
      none = .ok [0, 3, 6, 9] ∧
    get_points 0 (some 0) (some 10) none (some 3) none none none none
      none = .ok [0, 5/2, 5, 15/2, 10] ∧
    (∀ (current : ℚ) (step stride : Option ℚ) (count gaps : Option ℕ)
       (exact : Option (List ℚ)),
        get_points 5 none none step stride count gaps (some (-2)) (some 3)
          exact =
        get_points current (some 3) (some 8) step stride count gaps none
          none exact) := by
  have h : (⌈(10 : ℚ) / 3⌉ : ℤ) = 4 := by norm_num [Int.ceil_eq_iff]
  refine ⟨?_, ?_, ?_, ?_⟩
  · simp [get_points, resolveEnd, resolveCount, pointsStartStop, truthyQ,
      truthyN, linspace, List.range_succ]
    norm_num
  · simp [get_points, resolveEnd, resolveCount, pointsStartStop, truthyQ,
      truthyN, arange, h, List.range_succ]
    norm_num
  · simp [get_points, resolveEnd, resolveCount, pointsStartStop, truthyQ,
      truthyN, linspace, h, List.range_succ]
    norm_num
  · intro current step stride count gaps exact
    cases exact
    · simp [get_points, resolveEnd]
      norm_num
    · simp [get_points]

/-- C4: iterating `scan.and_back` of a `SimpleScan` over the points
`[0, 1]` yields the records for positions `0, 1, 1, 0`, and folding the
four detector measurements by position as `Scan.plot` does — a first
visit appends the bare scalar promoted to `Average(value)`, a revisit
does `+=` on the existing monoid — produces exactly two accumulated
entries, for positions 0 and 1 in the original forward order, each
combining its two visits. -/
theorem andBack_revisit_accumulation (t : String) (d : DefaultsSlot)
    (v0 v1 v2 v3 : ℚ) :
    ((Scan.simple t [0, 1] d).and_back).records =
      some [[(t, 0)], [(t, 1)], [(t, 1)], [(t, 0)]] ∧
    plotFold [([(t, 0)], .scalar v0), ([(t, 1)], .scalar v1),
              ([(t, 1)], .scalar v2), ([(t, 0)], .scalar v3)] ([], []) =
      .ok ([0, 1], [⟨v0 + v3, 2⟩, ⟨v1 + v2, 2⟩]) := by
  constructor
  · simp [Scan.and_back, Scan.reverse, Scan.records]
  · simp [plotFold, promote, idxOf, updateAt, Average.iadd]
    norm_num

/-- C7 counterexample: for the `MonoidList` `x = MonoidList([Sum(3)])`,
`x.zero()` is the plain list `[Sum(0)]` and `x.zero() + x` raises
`TypeError` (a plain list concatenates only with another list, and
`MonoidList` defines no `__radd__`) — so `x.zero() + x == x` fails for
`MonoidList`. -/
theorem monoidList_zero_add_counterexample :
    (MVal.mlist [.sumM 3]).zeroM = some (.listV [.sumM 0]) ∧
    pyAdd (.listV [.sumM 0]) (.mlist [.sumM 3]) = .error "TypeError" := by
  exact ⟨rfl, rfl⟩

/-- C7 (amended): for `Sum`, `Average` and `Polarisation`,
`x + x.zero() == x`, `x.zero() + x == x` and `x + 0` behaves as
`x + x.zero()` (all structurally, hence by scalar value); for
`MonoidList`, `x + x.zero() == x` and `x + 0` behaves as
`x + x.zero()` still hold, but `x.zero() + x` raises `TypeError` since
`zero()` returns a plain list and `MonoidList` has no `__radd__`. -/
theorem monoid_identity_laws :
    (∀ m : FlatMonoid,
        pyAdd (.flat m) (.flat m.zero) = .ok (.flat m) ∧
        pyAdd (.flat m.zero) (.flat m) = .ok (.flat m) ∧
        pyAdd (.flat m) (.intV 0) = pyAdd (.flat m) (.flat m.zero)) ∧
    (∀ vs : List FlatMonoid,
        pyAdd (.mlist vs) (.listV (vs.map FlatMonoid.zero)) =
          .ok (.mlist vs) ∧
        pyAdd (.mlist vs) (.intV 0) =
          pyAdd (.mlist vs) (.listV (vs.map FlatMonoid.zero))) := by
  have hz : ∀ vs : List FlatMonoid,
      zipFlatAdd vs (vs.map FlatMonoid.zero) = .ok vs := by
    intro vs
    induction vs with
    | nil => rfl
    | cons a rest ih =>
        have ha : flatAdd a a.zero = .ok a := by
          cases a <;> simp [flatAdd, FlatMonoid.zero]
        simp [zipFlatAdd, ha, ih]
  constructor
  · intro m
    refine ⟨?_, ?_, ?_⟩ <;>
      cases m <;> simp [pyAdd, flatAdd, FlatMonoid.zero, Except.map]
  · intro vs
    constructor
    · simp [pyAdd, hz vs, Except.map]
    · simp [pyAdd]

/-- C2 counterexample: with `ups` and `downs` counting monoids of
scalar values 1 and 3 (uncertainty 1 each), the code's
`Polarisation.err` is the *signed* `P · …` — here negative — while the
claimed formula `|P| · …` is positive, so the two differ. -/
theorem polErr_abs_counterexample :
    polErr ⟨1, 1⟩ ⟨3, 1⟩ ≠ polErrSpec ⟨1, 1⟩ ⟨3, 1⟩ := by
  simp only [polErr, polErrSpec, polFloat]
  norm_num
  intro h
  have h2 : (0:ℝ) < Real.sqrt 2 := Real.sqrt_pos.mpr (by norm_num)
  have h5 : (0:ℝ) < Real.sqrt 5 := Real.sqrt_pos.mpr (by norm_num)
  have h16 : (0:ℝ) < Real.sqrt 16 := Real.sqrt_pos.mpr (by norm_num)
  rw [abs_of_pos (by norm_num : (0:ℝ) < 1/2)] at h
  have hpos : (0:ℝ) < 1 / 2 * Real.sqrt 2 * (Real.sqrt 5 / Real.sqrt 16) := by
    apply mul_pos
    · apply mul_pos
      · norm_num
      · exact h2
    · exact div_pos h5 h16
  linarith [h, hpos]

/-- C2 (amended): for every `Polarisation` whose `ups`/`downs` are
counting monoids with scalar values `u, d` and uncertainties `σu, σd`,
`err()` returns the *signed*
`P · sqrt(σd² + σu²) · sqrt((u−d)⁻² + (u+d)⁻²)` with `P = (u−d)/(u+d)`
(not `|P| · …`), and returns 0 when `u + d = 0`. -/
theorem polarisation_err_formula :
    (∀ ups downs : CountMonoid, ups.val + downs.val ≠ 0 →
        polErr ups downs =
          (ups.val - downs.val) / (ups.val + downs.val) *
          Real.sqrt (downs.unc ^ 2 + ups.unc ^ 2) *
          Real.sqrt ((ups.val - downs.val) ^ (-2:ℤ) +
                     (ups.val + downs.val) ^ (-2:ℤ))) ∧
    (∀ ups downs : CountMonoid, ups.val + downs.val = 0 →
        polErr ups downs = 0) := by
  constructor
  · intro u d h
    simp [polErr, polFloat, h]
  · intro u d h
    simp [polErr, h]

/-- C2 witness: the amended formula applied at `u=1, σu=1, d=3, σd=1`
(the hypothesis `1 + 3 ≠ 0` discharged numerically) and the zero clause
at `u = d = 0`. -/
theorem polarisation_err_formula_witness :
    polErr ⟨1, 1⟩ ⟨3, 1⟩ =
      ((1:ℝ) - 3) / (1 + 3) * Real.sqrt (1 ^ 2 + 1 ^ 2) *
        Real.sqrt (((1:ℝ) - 3) ^ (-2:ℤ) + ((1:ℝ) + 3) ^ (-2:ℤ)) ∧
    polErr ⟨0, 1⟩ ⟨0, 1⟩ = 0 :=
  ⟨polarisation_err_formula.1 ⟨1, 1⟩ ⟨3, 1⟩ (by norm_num),
   polarisation_err_formula.2 ⟨0, 1⟩ ⟨0, 1⟩ (by norm_num)⟩

/-- C8: the per-step action of `Fit.fit_plot_action` returns `None`
whenever fewer than `degree` points have been accumulated, and also when
the fit attempt fails (the failure is caught locally, never propagated);
with at least `degree` points and a converging fit it returns the fit
parameters. -/
theorem fit_plot_action_gate (degree : ℕ) (xs ys : List ℚ)
    (fitFn : List ℚ → List ℚ → Except Unit (List ℚ)) :
    (xs.length < degree → fitPlotActionStep degree xs ys fitFn = none) ∧
    (∀ e, fitFn xs ys = .error e →
      fitPlotActionStep degree xs ys fitFn = none) ∧
    (degree ≤ xs.length → ∀ p, fitFn xs ys = .ok p →
      fitPlotActionStep degree xs ys fitFn = some p) := by
  refine ⟨?_, ?_, ?_⟩
  · intro h
    simp [fitPlotActionStep, h]
  · intro e he
    by_cases hlt : xs.length < degree
    · simp [fitPlotActionStep, hlt]
    · simp [fitPlotActionStep, hlt, he]
  · intro h p hp
    simp [fitPlotActionStep, Nat.not_lt.mpr h, hp]

/-- C8 witness: a fit of degree 4 on 3 points returns no fit yet; on 4
points a failing fit still returns no fit; on 4 points a converging fit
returns its parameters. -/
theorem fit_plot_action_gate_witness :
    fitPlotActionStep 4 [0, 1, 2] [5, 6, 7] (fun _ _ => .ok [1, 2]) =
      none ∧
    fitPlotActionStep 4 [0, 1, 2, 3] [5, 6, 7, 8] (fun _ _ => .error ()) =
      none ∧
    fitPlotActionStep 4 [0, 1, 2, 3] [5, 6, 7, 8] (fun _ _ => .ok [1, 2]) =
      some [1, 2] :=
  ⟨(fit_plot_action_gate 4 [0, 1, 2] [5, 6, 7] _).1 (by norm_num),
   (fit_plot_action_gate 4 [0, 1, 2, 3] [5, 6, 7, 8] _).2.1 () rfl,
   (fit_plot_action_gate 4 [0, 1, 2, 3] [5, 6, 7, 8] _).2.2
     (by norm_num) [1, 2] rfl⟩

end PyGenie
